import Mathlib

/-!
Shallow embedding of src/sveltekit-frontend/src/lib/wasm/legal_grpc_client.cpp
(class LegalGrpcWebClient, namespace legal_cuda_streaming).

Modelling conventions:
* The gRPC transport is external.  Its observable effects (opening a duplex
  stream, writing a request, WritesDone, Finish) are recorded in an event
  trace inside the client state; outcomes the transport reports (whether an
  open/write/finish succeeded) enter the model as Boolean parameters of the
  corresponding operation, exactly at the points where the C++ receives them.
* std::map<std::string, std::unique_ptr<StreamContext>> is an association
  list with insert-or-replace (operator[]) and erase semantics.
* emscripten::val callbacks are identified by a Nat token; invoking a sink is
  recorded as a SinkEvent rather than executed.
* Protobuf messages are structures holding exactly the fields the C++ sets;
  unset protobuf fields carry their proto3 defaults (empty string / empty
  list / absent submessage).
* Each C++ method holds streams_mutex_ for its whole body, so every public
  operation and every run of readStreamResponses is one atomic step of the
  model.
-/

namespace LegalGrpcWeb

/-- CudaOptions submessage, as set by sendEmbeddingRequest. -/
structure CudaOptions where
  use_tensor_cores : Bool
  batch_size : Nat
  enable_memory_pool : Bool
  deriving DecidableEq, Repr

/-- CudaRequest protobuf message with the fields the C++ client sets. -/
structure CudaRequest where
  session_id : String
  operation_type : String
  raw_text : String
  is_final_chunk : Bool
  embedding_vector : List Int
  cuda_options : Option CudaOptions
  deriving DecidableEq, Repr

/-- Observable calls made on the gRPC transport, in program order. -/
inductive TransportEvent where
  | openStream (session_id : String)
  | write (session_id : String) (request : CudaRequest)
  | writesDone (session_id : String)
  | finish (session_id : String)
  deriving DecidableEq, Repr

/-- StreamContext from the C++ (the ClientContext and stream pointers are
owned by the transport; the model keeps the active flag and session id). -/
structure StreamContext where
  active : Bool
  session_id : String
  deriving DecidableEq, Repr

/-- State of a LegalGrpcWebClient instance: the connected_ flag, the three
client-wide callback fields, the active_streams_ map and the transport
trace. -/
structure ClientState where
  connected : Bool
  server_endpoint : String
  response_callback : Option Nat
  error_callback : Option Nat
  completion_callback : Option Nat
  active_streams : List (String × StreamContext)
  trace : List TransportEvent
  deriving DecidableEq, Repr

/-- std::map::find on the association list. -/
def mapLookup (k : String) : List (String × StreamContext) → Option StreamContext
  | [] => none
  | (k', v) :: rest => if k = k' then some v else mapLookup k rest

/-- std::map::operator[] assignment: replace the entry for k if present,
otherwise append a new entry. -/
def mapInsert (k : String) (v : StreamContext) :
    List (String × StreamContext) → List (String × StreamContext)
  | [] => [(k, v)]
  | (k', v') :: rest =>
    if k = k' then (k, v) :: rest else (k', v') :: mapInsert k v rest

/-- std::map::erase of the entry for k (a std::map holds at most one). -/
def mapErase (k : String) :
    List (String × StreamContext) → List (String × StreamContext)
  | [] => []
  | (k', v) :: rest => if k = k' then rest else (k', v) :: mapErase k rest

/-- LegalGrpcWebClient constructor: stores the endpoint, creates the channel
and stub, and sets connected_ to true.  No other field is ever written to
connected_ again. -/
def mkClient (endpoint : String) : ClientState :=
  { connected := true
    server_endpoint := endpoint
    response_callback := none
    error_callback := none
    completion_callback := none
    active_streams := []
    trace := [] }

/-- setResponseCallback: overwrites the single client-wide field. -/
def setResponseCallback (callback : Nat) (st : ClientState) : ClientState :=
  { st with response_callback := some callback }

/-- setErrorCallback: overwrites the single client-wide field. -/
def setErrorCallback (callback : Nat) (st : ClientState) : ClientState :=
  { st with error_callback := some callback }

/-- setCompletionCallback: overwrites the single client-wide field. -/
def setCompletionCallback (callback : Nat) (st : ClientState) : ClientState :=
  { st with completion_callback := some callback }

/-- startBidirectionalStream: unconditionally builds a StreamContext, calls
stub_->BidirectionalLegalStream (recorded as an openStream transport event),
sets active to true, stores the context under session_id with operator[]
(replacing any existing entry), and returns session_id.  The C++ performs no
check at all on the outcome of the open; the parameter openOk models whether
the remote stream was actually established and is ignored by the code, as in
the source. -/
def startBidirectionalStream (session_id : String) (openOk : Bool)
    (st : ClientState) : String × ClientState :=
  let ctx : StreamContext := { active := true, session_id := session_id }
  let st' := { st with
    trace := st.trace ++ [TransportEvent.openStream session_id]
    active_streams := mapInsert session_id ctx st.active_streams }
  (session_id, st')

/-- CudaRequest built by sendEmbeddingRequest: operation "embed", the text,
the final flag, and fixed CUDA options. -/
def buildEmbeddingRequest (session_id text : String) (is_final : Bool) :
    CudaRequest :=
  { session_id := session_id
    operation_type := "embed"
    raw_text := text
    is_final_chunk := is_final
    embedding_vector := []
    cuda_options := some
      { use_tensor_cores := true, batch_size := 1, enable_memory_pool := true } }

/-- sendEmbeddingRequest: fails returning false when the session id is absent
from active_streams_ or its active flag is cleared; otherwise builds the
request, calls stream->Write (its Boolean outcome is the parameter writeOk,
returned as the function result) and, when is_final, additionally calls
stream->WritesDone.  Nothing in the client state is updated beyond the
transport trace: in particular the active flag is left untouched by a final
send. -/
def sendEmbeddingRequest (session_id text : String) (is_final writeOk : Bool)
    (st : ClientState) : Bool × ClientState :=
  match mapLookup session_id st.active_streams with
  | none => (false, st)
  | some ctx =>
    if ctx.active then
      let request := buildEmbeddingRequest session_id text is_final
      let afterWrite :=
        { st with trace := st.trace ++ [TransportEvent.write session_id request] }
      let afterDone :=
        if is_final then
          { afterWrite with
            trace := afterWrite.trace ++ [TransportEvent.writesDone session_id] }
        else afterWrite
      (writeOk, afterDone)
    else
      (false, st)

/-- CudaRequest built by sendSearchRequest: operation "search", the final
flag, and the embedding vector; raw_text and cuda_options stay at their
proto3 defaults. -/
def buildSearchRequest (session_id : String) (embedding_vector : List Int)
    (is_final : Bool) : CudaRequest :=
  { session_id := session_id
    operation_type := "search"
    raw_text := ""
    is_final_chunk := is_final
    embedding_vector := embedding_vector
    cuda_options := none }

/-- sendSearchRequest: same guard as sendEmbeddingRequest, then a single
stream->Write whose outcome writeOk is returned.  Unlike the embedding path,
no WritesDone is ever issued, not even when is_final is true. -/
def sendSearchRequest (session_id : String) (embedding_vector : List Int)
    (is_final writeOk : Bool) (st : ClientState) : Bool × ClientState :=
  match mapLookup session_id st.active_streams with
  | none => (false, st)
  | some ctx =>
    if ctx.active then
      let request := buildSearchRequest session_id embedding_vector is_final
      (writeOk,
        { st with trace := st.trace ++ [TransportEvent.write session_id request] })
    else
      (false, st)

/-- closeStream: when the session id is absent, returns false and changes
nothing.  Otherwise clears the active flag, calls WritesDone and Finish on
the stream (finishOk models the Status::ok outcome of Finish, returned as
the result) and erases the registry entry. -/
def closeStream (session_id : String) (finishOk : Bool) (st : ClientState) :
    Bool × ClientState :=
  match mapLookup session_id st.active_streams with
  | none => (false, st)
  | some ctx =>
    let deactivated :=
      mapInsert session_id { ctx with active := false } st.active_streams
    (finishOk,
      { st with
        active_streams := mapErase session_id deactivated
        trace := st.trace ++
          [TransportEvent.writesDone session_id, TransportEvent.finish session_id] })

/-- isConnected: returns the connected_ flag. -/
def isConnected (st : ClientState) : Bool :=
  st.connected

/-- CudaMetrics submessage of CudaResponse, as read by cudaResponseToJson. -/
structure CudaMetrics where
  total_processing_time_us : Nat
  gpu_utilization : Nat
  gpu_model : String
  deriving DecidableEq, Repr

/-- CudaResponse protobuf message with the fields cudaResponseToJson reads.
Floating-point embedding components are carried as integers; the client only
copies and prints them. -/
structure CudaResponse where
  session_id : String
  operation_type : String
  status : Int
  computed_embedding : List Int
  cuda_metrics : Option CudaMetrics
  deriving DecidableEq, Repr

/-- cudaResponseToJson: hand-rolled JSON built exactly as in the C++ (the
embeddings block only when the repeated field is nonempty, the performance
block only when cuda_metrics is present). -/
def cudaResponseToJson (response : CudaResponse) : String :=
  let base := "\x7b" ++ "\"session_id\":\"" ++ response.session_id ++ "\"," ++
    "\"operation_type\":\"" ++ response.operation_type ++ "\"," ++
    "\"status\":" ++ toString response.status ++ ","
  let withEmbeddings :=
    if response.computed_embedding.length > 0 then
      base ++ "\"embeddings\":[" ++
        String.intercalate "," (response.computed_embedding.map toString) ++ "],"
    else base
  let withMetrics :=
    match response.cuda_metrics with
    | some metrics =>
      withEmbeddings ++ "\"performance\":\x7b" ++
        "\"processing_time_us\":" ++ toString metrics.total_processing_time_us ++ "," ++
        "\"gpu_utilization\":" ++ toString metrics.gpu_utilization ++ "," ++
        "\"gpu_model\":\"" ++ metrics.gpu_model ++ "\"" ++ "\x7d"
    | none => withEmbeddings
  withMetrics ++ "\x7d"

/-- Invocations of caller-supplied sinks, plus console logging, as emitted by
the read loops.  Callbacks are identified by the Nat token they were
registered with. -/
inductive SinkEvent where
  | onMessage (callback : Nat) (payload : String)
  | onError (callback : Nat) (message : String)
  | onCompletion (callback : Nat)
  | consoleError (message : String)
  deriving DecidableEq, Repr

/-- readStreamResponses: the background reader for one streaming session.
Returns the session's lookup failure as an early return producing no events.
Otherwise the while loop forwards each inbound CudaResponse to the
client-wide response_callback_ (when set, and only while the active flag
holds), then Finish's status is taken (statusOk/statusMsg model it): a
non-ok status goes to error_callback_ when set, and completion_callback_
fires when set.  The registry itself is not mutated by the reader.  The
inbound list and final status are the transport's, supplied as parameters. -/
def readStreamResponses (session_id : String) (inbound : List CudaResponse)
    (statusOk : Bool) (statusMsg : String) (st : ClientState) :
    List SinkEvent :=
  match mapLookup session_id st.active_streams with
  | none => []
  | some ctx =>
    let messageEvents :=
      if ctx.active then
        match st.response_callback with
        | some cb =>
          inbound.map (fun response =>
            SinkEvent.onMessage cb (cudaResponseToJson response))
        | none => []
      else []
    let errorEvents :=
      if statusOk then []
      else
        match st.error_callback with
        | some cb => [SinkEvent.onError cb statusMsg]
        | none => []
    let completionEvents :=
      match st.completion_callback with
      | some cb => [SinkEvent.onCompletion cb]
      | none => []
    messageEvents ++ errorEvents ++ completionEvents

/-- ProcessingFlags submessage set by processLegalDocument. -/
structure ProcessingFlags where
  extract_entities : Bool
  generate_summary : Bool
  compute_embeddings : Bool
  analyze_sentiment : Bool
  detect_clauses : Bool
  deriving DecidableEq, Repr

/-- DocumentRequest protobuf message with the fields processLegalDocument
sets. -/
structure DocumentRequest where
  document_id : String
  document_content : String
  document_type : String
  flags : ProcessingFlags
  deriving DecidableEq, Repr

/-- Request construction in processLegalDocument: the four analysis flags
are hard-coded true and detect_clauses is the equality test of the document
type against "contract". -/
def buildDocumentRequest (document_id document_content document_type : String) :
    DocumentRequest :=
  { document_id := document_id
    document_content := document_content
    document_type := document_type
    flags :=
      { extract_entities := true
        generate_summary := true
        compute_embeddings := true
        analyze_sentiment := true
        detect_clauses := document_type == "contract" } }

/-- DocumentResponse field read by documentResponseToJson. -/
structure DocumentResponse where
  document_id : String
  deriving DecidableEq, Repr

/-- documentResponseToJson, the simplified conversion from the C++. -/
def documentResponseToJson (response : DocumentResponse) : String :=
  "\x7b\"document_id\":\"" ++ response.document_id ++ "\"\x7d"

/-- Reader thread of processLegalDocument: each response goes to the
caller's progress callback; a non-ok Finish status is only logged with
console.error.  No error sink and no completion sink exist on this path. -/
def processLegalDocumentLoop (progress_callback : Nat)
    (inbound : List DocumentResponse) (statusOk : Bool) (statusMsg : String) :
    List SinkEvent :=
  inbound.map (fun response =>
    SinkEvent.onMessage progress_callback (documentResponseToJson response)) ++
  (if statusOk then []
   else [SinkEvent.consoleError ("Document processing failed: " ++ statusMsg)])

/-- SearchResponse field read by searchResponseToJson. -/
structure SearchResponse where
  query_id : String
  deriving DecidableEq, Repr

/-- searchResponseToJson, the simplified conversion from the C++. -/
def searchResponseToJson (response : SearchResponse) : String :=
  "\x7b\"query_id\":\"" ++ response.query_id ++ "\"\x7d"

/-- Reader thread of performSemanticSearch: results go to the caller's
results callback; a non-ok status is only logged; no completion sink. -/
def performSemanticSearchLoop (results_callback : Nat)
    (inbound : List SearchResponse) (statusOk : Bool) (statusMsg : String) :
    List SinkEvent :=
  inbound.map (fun response =>
    SinkEvent.onMessage results_callback (searchResponseToJson response)) ++
  (if statusOk then []
   else [SinkEvent.consoleError ("Semantic search failed: " ++ statusMsg)])

/-- SimilarityResponse field read by similarityResponseToJson. -/
structure SimilarityResponse where
  base_case_id : String
  deriving DecidableEq, Repr

/-- similarityResponseToJson, the simplified conversion from the C++. -/
def similarityResponseToJson (response : SimilarityResponse) : String :=
  "\x7b\"base_case_id\":\"" ++ response.base_case_id ++ "\"\x7d"

/-- Reader thread of analyzeCaseSimilarity: results go to the caller's
similarity callback; a non-ok status is only logged; no completion sink. -/
def analyzeCaseSimilarityLoop (similarity_callback : Nat)
    (inbound : List SimilarityResponse) (statusOk : Bool) (statusMsg : String) :
    List SinkEvent :=
  inbound.map (fun response =>
    SinkEvent.onMessage similarity_callback (similarityResponseToJson response)) ++
  (if statusOk then []
   else [SinkEvent.consoleError ("Case similarity analysis failed: " ++ statusMsg)])

/-- Public operations of the client that mutate its state, with the
transport outcomes each one consumes. -/
inductive ClientOp where
  | setResponse (callback : Nat)
  | setError (callback : Nat)
  | setCompletion (callback : Nat)
  | start (session_id : String) (openOk : Bool)
  | sendEmbedding (session_id text : String) (is_final writeOk : Bool)
  | sendSearch (session_id : String) (embedding_vector : List Int)
      (is_final writeOk : Bool)
  | close (session_id : String) (finishOk : Bool)
  deriving DecidableEq, Repr

/-- State transition of one public client call. -/
def step (st : ClientState) : ClientOp → ClientState
  | ClientOp.setResponse cb => setResponseCallback cb st
  | ClientOp.setError cb => setErrorCallback cb st
  | ClientOp.setCompletion cb => setCompletionCallback cb st
  | ClientOp.start sid openOk => (startBidirectionalStream sid openOk st).2
  | ClientOp.sendEmbedding sid text f w => (sendEmbeddingRequest sid text f w st).2
  | ClientOp.sendSearch sid vec f w => (sendSearchRequest sid vec f w st).2
  | ClientOp.close sid ok => (closeStream sid ok st).2

/-- Run a sequence of public client calls from a state. -/
def run (st : ClientState) (ops : List ClientOp) : ClientState :=
  ops.foldl step st

/-- Count of onCompletion events in a sink-event list. -/
def countCompletions (events : List SinkEvent) : Nat :=
  events.countP (fun e =>
    match e with
    | SinkEvent.onCompletion _ => true
    | _ => false)

/-- Whether an event is a message delivery. -/
def isOnMessage : SinkEvent → Bool
  | SinkEvent.onMessage _ _ => true
  | _ => false

/-- Whether an event, when it is a message delivery, goes to the given
callback. -/
def messageGoesTo (target : Nat) : SinkEvent → Bool
  | SinkEvent.onMessage cb _ => cb == target
  | _ => true

/-! Association-list (std::map) lemmas. -/

theorem mapLookup_mapInsert_self (k : String) (v : StreamContext)
    (l : List (String × StreamContext)) :
    mapLookup k (mapInsert k v l) = some v := by
  induction l with
  | nil => simp [mapInsert, mapLookup]
  | cons p rest ih =>
    obtain ⟨k', v'⟩ := p
    by_cases h : k = k'
    · simp [mapInsert, mapLookup, h]
    · simp [mapInsert, mapLookup, h, ih]

theorem mapErase_mapInsert (k : String) (v : StreamContext)
    (l : List (String × StreamContext)) :
    mapErase k (mapInsert k v l) = mapErase k l := by
  induction l with
  | nil => simp [mapInsert, mapErase]
  | cons p rest ih =>
    obtain ⟨k', v'⟩ := p
    by_cases h : k = k'
    · simp [mapInsert, mapErase, h]
    · simp [mapInsert, mapErase, h, ih]

theorem mapLookup_eq_none_of_not_mem (k : String)
    (l : List (String × StreamContext)) (h : k ∉ l.map Prod.fst) :
    mapLookup k l = none := by
  induction l with
  | nil => rfl
  | cons p rest ih =>
    obtain ⟨k', v'⟩ := p
    simp only [List.map_cons, List.mem_cons] at h
    push_neg at h
    simp [mapLookup, h.1, ih h.2]

theorem mem_keys_mapErase (k x : String) (l : List (String × StreamContext))
    (h : x ∈ (mapErase k l).map Prod.fst) : x ∈ l.map Prod.fst := by
  induction l with
  | nil => simp [mapErase] at h
  | cons p rest ih =>
    obtain ⟨k', v'⟩ := p
    by_cases hk : k = k'
    · simp only [mapErase, if_pos hk] at h
      simp [h]
    · simp only [mapErase, if_neg hk, List.map_cons, List.mem_cons] at h
      rcases h with h | h
      · simp [h]
      · simp [ih h]

theorem nodup_keys_mapErase (k : String) (l : List (String × StreamContext))
    (h : (l.map Prod.fst).Nodup) : ((mapErase k l).map Prod.fst).Nodup := by
  induction l with
  | nil => simp [mapErase]
  | cons p rest ih =>
    obtain ⟨k', v'⟩ := p
    simp only [List.map_cons, List.nodup_cons] at h
    by_cases hk : k = k'
    · simpa [mapErase, hk] using h.2
    · simp only [mapErase, if_neg hk, List.map_cons, List.nodup_cons]
      exact ⟨fun hm => h.1 (mem_keys_mapErase k k' rest hm), ih h.2⟩

theorem mapLookup_mapErase_self (k : String) (l : List (String × StreamContext))
    (h : (l.map Prod.fst).Nodup) : mapLookup k (mapErase k l) = none := by
  induction l with
  | nil => rfl
  | cons p rest ih =>
    obtain ⟨k', v'⟩ := p
    simp only [List.map_cons, List.nodup_cons] at h
    by_cases hk : k = k'
    · subst hk
      simpa [mapErase] using mapLookup_eq_none_of_not_mem k rest h.1
    · simp [mapErase, mapLookup, hk, ih h.2]

theorem mem_keys_mapInsert (k x : String) (v : StreamContext)
    (l : List (String × StreamContext))
    (h : x ∈ (mapInsert k v l).map Prod.fst) : x = k ∨ x ∈ l.map Prod.fst := by
  induction l with
  | nil => simpa [mapInsert] using h
  | cons p rest ih =>
    obtain ⟨k', v'⟩ := p
    by_cases hk : k = k'
    · simp only [mapInsert, if_pos hk, List.map_cons, List.mem_cons] at h
      rcases h with h | h
      · exact Or.inl h
      · exact Or.inr (by simp [h])
    · simp only [mapInsert, if_neg hk, List.map_cons, List.mem_cons] at h
      rcases h with h | h
      · exact Or.inr (by simp [h])
      · rcases ih h with h' | h'
        · exact Or.inl h'
        · exact Or.inr (by simp [h'])

theorem nodup_keys_mapInsert (k : String) (v : StreamContext)
    (l : List (String × StreamContext)) (h : (l.map Prod.fst).Nodup) :
    ((mapInsert k v l).map Prod.fst).Nodup := by
  induction l with
  | nil => simp [mapInsert]
  | cons p rest ih =>
    obtain ⟨k', v'⟩ := p
    simp only [List.map_cons, List.nodup_cons] at h
    by_cases hk : k = k'
    · subst hk
      simpa [mapInsert] using h
    · simp only [mapInsert, if_neg hk, List.map_cons, List.nodup_cons]
      refine ⟨fun hm => ?_, ih h.2⟩
      rcases mem_keys_mapInsert k k' v rest hm with h' | h'
      · exact hk h'.symm
      · exact h.1 h'

/-! Frame lemmas: which state components each operation leaves untouched. -/

theorem sendEmbeddingRequest_active_streams (session_id text : String)
    (is_final writeOk : Bool) (st : ClientState) :
    (sendEmbeddingRequest session_id text is_final writeOk st).2.active_streams =
      st.active_streams := by
  unfold sendEmbeddingRequest
  split
  · rfl
  next ctx _ =>
    by_cases h : ctx.active
    · simp only [if_pos h]
      cases is_final <;> rfl
    · simp [h]

theorem sendEmbeddingRequest_connected (session_id text : String)
    (is_final writeOk : Bool) (st : ClientState) :
    (sendEmbeddingRequest session_id text is_final writeOk st).2.connected =
      st.connected := by
  unfold sendEmbeddingRequest
  split
  · rfl
  next ctx _ =>
    by_cases h : ctx.active
    · simp only [if_pos h]
      cases is_final <;> rfl
    · simp [h]

theorem sendSearchRequest_connected (session_id : String)
    (embedding_vector : List Int) (is_final writeOk : Bool) (st : ClientState) :
    (sendSearchRequest session_id embedding_vector is_final writeOk st).2.connected =
      st.connected := by
  unfold sendSearchRequest
  split
  · rfl
  next ctx _ =>
    by_cases h : ctx.active <;> simp [h]

theorem closeStream_connected (session_id : String) (finishOk : Bool)
    (st : ClientState) :
    (closeStream session_id finishOk st).2.connected = st.connected := by
  unfold closeStream
  split <;> rfl

theorem connected_step (st : ClientState) (op : ClientOp) :
    (step st op).connected = st.connected := by
  cases op with
  | setResponse cb => rfl
  | setError cb => rfl
  | setCompletion cb => rfl
  | start sid openOk => rfl
  | sendEmbedding sid text f w => exact sendEmbeddingRequest_connected sid text f w st
  | sendSearch sid vec f w => exact sendSearchRequest_connected sid vec f w st
  | close sid ok => exact closeStream_connected sid ok st

theorem run_connected (ops : List ClientOp) :
    ∀ st : ClientState, (run st ops).connected = st.connected := by
  induction ops with
  | nil => intro st; rfl
  | cons op rest ih =>
    intro st
    have hstep : run st (op :: rest) = run (step st op) rest := rfl
    rw [hstep, ih, connected_step]

theorem closeStream_not_found (session_id : String) (finishOk : Bool)
    (st : ClientState) (h : mapLookup session_id st.active_streams = none) :
    closeStream session_id finishOk st = (false, st) := by
  unfold closeStream
  rw [h]

theorem closeStream_found (session_id : String) (finishOk : Bool)
    (st : ClientState) (ctx : StreamContext)
    (h : mapLookup session_id st.active_streams = some ctx) :
    closeStream session_id finishOk st =
      (finishOk,
        { st with
          active_streams := mapErase session_id st.active_streams
          trace := st.trace ++
            [TransportEvent.writesDone session_id,
              TransportEvent.finish session_id] }) := by
  unfold closeStream
  rw [h]
  simp [mapErase_mapInsert]

theorem sendEmbeddingRequest_active (session_id text : String)
    (is_final writeOk : Bool) (st : ClientState) (ctx : StreamContext)
    (h : mapLookup session_id st.active_streams = some ctx)
    (hactive : ctx.active = true) :
    sendEmbeddingRequest session_id text is_final writeOk st =
      (writeOk,
        { st with trace := st.trace ++
            [TransportEvent.write session_id
              (buildEmbeddingRequest session_id text is_final)] ++
            (if is_final then [TransportEvent.writesDone session_id] else []) }) := by
  unfold sendEmbeddingRequest
  rw [h]
  cases is_final <;> simp [hactive]

theorem sendSearchRequest_active (session_id : String)
    (embedding_vector : List Int) (is_final writeOk : Bool) (st : ClientState)
    (ctx : StreamContext) (h : mapLookup session_id st.active_streams = some ctx)
    (hactive : ctx.active = true) :
    sendSearchRequest session_id embedding_vector is_final writeOk st =
      (writeOk,
        { st with trace := st.trace ++
            [TransportEvent.write session_id
              (buildSearchRequest session_id embedding_vector is_final)] }) := by
  unfold sendSearchRequest
  rw [h]
  simp [hactive]

/-! Claim theorems. -/

/-- C6: for every document-processing job, the constructed DocumentRequest
has the entity-extraction, summary, embeddings and sentiment flags set, and
has the clause-detection flag set if and only if the document type equals
"contract". -/
theorem c6_document_request_flags (document_id document_content document_type : String) :
    (buildDocumentRequest document_id document_content document_type).flags.extract_entities = true ∧
    (buildDocumentRequest document_id document_content document_type).flags.generate_summary = true ∧
    (buildDocumentRequest document_id document_content document_type).flags.compute_embeddings = true ∧
    (buildDocumentRequest document_id document_content document_type).flags.analyze_sentiment = true ∧
    ((buildDocumentRequest document_id document_content document_type).flags.detect_clauses = true ↔
      document_type = "contract") := by
  refine ⟨rfl, rfl, rfl, rfl, ?_⟩
  simp [buildDocumentRequest]

/-- C7: closing a nonexistent session id returns failure and leaves the
client state unchanged, and closing the same session id twice is idempotent:
whatever the first close did, the second close finds no entry, returns
failure and is a no-op. -/
theorem c7_close_idempotent (st : ClientState) (session_id : String)
    (finishOk1 finishOk2 : Bool)
    (hnodup : (st.active_streams.map Prod.fst).Nodup) :
    (mapLookup session_id st.active_streams = none →
      closeStream session_id finishOk1 st = (false, st)) ∧
    closeStream session_id finishOk2 (closeStream session_id finishOk1 st).2 =
      (false, (closeStream session_id finishOk1 st).2) := by
  refine ⟨fun h => closeStream_not_found session_id finishOk1 st h, ?_⟩
  cases hm : mapLookup session_id st.active_streams with
  | none =>
    rw [closeStream_not_found session_id finishOk1 st hm]
    exact closeStream_not_found session_id finishOk2 st hm
  | some ctx =>
    rw [closeStream_found session_id finishOk1 st ctx hm]
    exact closeStream_not_found session_id finishOk2 _
      (mapLookup_mapErase_self session_id st.active_streams hnodup)

/-- C7 witness: on a client with one started session "s1", closing an
unknown id is a failing no-op, and a second close of "s1" after the first is
a failing no-op. -/
theorem c7_close_idempotent_witness :
    (mapLookup "s1"
        ((startBidirectionalStream "s1" true (mkClient "e")).2).active_streams = none →
      closeStream "s1" true (startBidirectionalStream "s1" true (mkClient "e")).2 =
        (false, (startBidirectionalStream "s1" true (mkClient "e")).2)) ∧
    closeStream "s1" false
        (closeStream "s1" true (startBidirectionalStream "s1" true (mkClient "e")).2).2 =
      (false,
        (closeStream "s1" true (startBidirectionalStream "s1" true (mkClient "e")).2).2) :=
  c7_close_idempotent (startBidirectionalStream "s1" true (mkClient "e")).2 "s1"
    true false (by decide)

/-- C8: a send (embedding or search) that references an unknown session id,
or a session whose active flag is cleared, returns false and leaves the
state unchanged: no write reaches the transport. -/
theorem c8_send_inactive_fails (st : ClientState) (session_id text : String)
    (embedding_vector : List Int) (is_final1 writeOk1 is_final2 writeOk2 : Bool)
    (h : ∀ ctx, mapLookup session_id st.active_streams = some ctx →
      ctx.active = false) :
    sendEmbeddingRequest session_id text is_final1 writeOk1 st = (false, st) ∧
    sendSearchRequest session_id embedding_vector is_final2 writeOk2 st =
      (false, st) := by
  constructor
  · unfold sendEmbeddingRequest
    cases hm : mapLookup session_id st.active_streams with
    | none => rfl
    | some ctx => simp [h ctx hm]
  · unfold sendSearchRequest
    cases hm : mapLookup session_id st.active_streams with
    | none => rfl
    | some ctx => simp [h ctx hm]

/-- C8 witness: on a client whose only session is "s1", sends referencing
the unknown id "s2" fail and change nothing. -/
theorem c8_send_inactive_fails_witness :
    sendEmbeddingRequest "s2" "text" false true
        (startBidirectionalStream "s1" true (mkClient "e")).2 =
      (false, (startBidirectionalStream "s1" true (mkClient "e")).2) ∧
    sendSearchRequest "s2" [1] true true
        (startBidirectionalStream "s1" true (mkClient "e")).2 =
      (false, (startBidirectionalStream "s1" true (mkClient "e")).2) :=
  c8_send_inactive_fails (startBidirectionalStream "s1" true (mkClient "e")).2
    "s2" "text" [1] false true true true
    (by
      intro ctx hctx
      rw [show mapLookup "s2"
          ((startBidirectionalStream "s1" true (mkClient "e")).2).active_streams =
          none from by decide] at hctx
      exact Option.noConfusion hctx)

/-- C9: after construction of the client, isConnected returns true after any
sequence of operations: the connected flag is set once in the constructor
and never cleared, so it does not reflect the actual channel state. -/
theorem c9_connected_forever (endpoint : String) (ops : List ClientOp) :
    isConnected (run (mkClient endpoint) ops) = true := by
  rw [isConnected, run_connected]
  rfl

/-- C10: the response callback is a single client-wide field, not
per-session: setting it replaces the previous value for every session, every
message any session's read loop delivers afterwards goes to that most
recently set callback, and on a freshly started session each inbound message
produces exactly one such delivery. -/
theorem c10_response_callback_client_wide (st : ClientState) (callback : Nat)
    (session_id : String) (openOk : Bool) (inbound : List CudaResponse)
    (statusOk : Bool) (statusMsg : String) :
    (setResponseCallback callback st).response_callback = some callback ∧
    (readStreamResponses session_id inbound statusOk statusMsg
        (setResponseCallback callback st)).all (messageGoesTo callback) = true ∧
    (readStreamResponses session_id inbound statusOk statusMsg
        (setResponseCallback callback
          (step st (ClientOp.start session_id openOk)))).countP isOnMessage =
      inbound.length := by
  refine ⟨rfl, ?_, ?_⟩
  · unfold readStreamResponses
    cases hm : mapLookup session_id
        (setResponseCallback callback st).active_streams with
    | none => rfl
    | some ctx =>
      simp only [List.all_append, Bool.and_eq_true]
      refine ⟨⟨?_, ?_⟩, ?_⟩
      · cases hact : ctx.active
        · rfl
        · simp [setResponseCallback, List.all_eq_true, messageGoesTo]
      · cases statusOk
        · cases hcb : (setResponseCallback callback st).error_callback <;>
            simp [messageGoesTo]
        · rfl
      · cases hcb : (setResponseCallback callback st).completion_callback <;>
          simp [messageGoesTo]
  · unfold readStreamResponses
    rw [show (setResponseCallback callback
        (step st (ClientOp.start session_id openOk))).active_streams =
      mapInsert session_id { active := true, session_id := session_id }
        st.active_streams from rfl]
    rw [mapLookup_mapInsert_self]
    simp only [List.countP_append]
    have hmsg : (inbound.map (fun response =>
        SinkEvent.onMessage callback (cudaResponseToJson response))).countP
          isOnMessage = inbound.length := by
      induction inbound with
      | nil => rfl
      | cons r rest ih => simp [List.countP_cons, ih, isOnMessage]
    rw [show (setResponseCallback callback
        (step st (ClientOp.start session_id openOk))).response_callback =
      some callback from rfl]
    simp only [hmsg]
    cases statusOk <;>
      cases hcb : (setResponseCallback callback
        (step st (ClientOp.start session_id openOk))).error_callback <;>
      cases hcc : (setResponseCallback callback
        (step st (ClientOp.start session_id openOk))).completion_callback <;>
      simp [isOnMessage, List.countP_cons]

/-- C1 counterexample: with session "s1" already active, a second
startBidirectionalStream for "s1" does not fail with AlreadyExists: it
returns the session id exactly as a fresh start does, and it does open a new
stream (a second openStream call is issued to the transport). -/
theorem c1_counterexample :
    mapLookup "s1"
        ((startBidirectionalStream "s1" true (mkClient "e")).2).active_streams =
      some { active := true, session_id := "s1" } ∧
    (startBidirectionalStream "s1" true
        (startBidirectionalStream "s1" true (mkClient "e")).2).1 = "s1" ∧
    (startBidirectionalStream "s1" true
        (startBidirectionalStream "s1" true (mkClient "e")).2).2.trace =
      (startBidirectionalStream "s1" true (mkClient "e")).2.trace ++
        [TransportEvent.openStream "s1"] := by
  decide

/-- C1 amended: startBidirectionalStream never fails on an id collision:
it always opens a new stream, returns the session id, and stores the fresh
handle with insert-or-replace, so a registry whose keys are distinct keeps
distinct keys and holds exactly the new handle for that id (never two
entries for the same id). -/
theorem c1_start_replaces (st : ClientState) (session_id : String)
    (openOk : Bool) (hnodup : (st.active_streams.map Prod.fst).Nodup) :
    (startBidirectionalStream session_id openOk st).1 = session_id ∧
    (((startBidirectionalStream session_id openOk st).2).active_streams.map
      Prod.fst).Nodup ∧
    mapLookup session_id
        ((startBidirectionalStream session_id openOk st).2).active_streams =
      some { active := true, session_id := session_id } := by
  refine ⟨rfl, ?_, ?_⟩
  · exact nodup_keys_mapInsert session_id
      { active := true, session_id := session_id } st.active_streams hnodup
  · exact mapLookup_mapInsert_self session_id
      { active := true, session_id := session_id } st.active_streams

/-- C1 witness: starting "s1" again on a client where "s1" is already active
succeeds, keeps the registry keys distinct, and stores the fresh handle. -/
theorem c1_start_replaces_witness :
    (startBidirectionalStream "s1" true
        (startBidirectionalStream "s1" true (mkClient "e")).2).1 = "s1" ∧
    (((startBidirectionalStream "s1" true
        (startBidirectionalStream "s1" true (mkClient "e")).2).2).active_streams.map
      Prod.fst).Nodup ∧
    mapLookup "s1"
        ((startBidirectionalStream "s1" true
          (startBidirectionalStream "s1" true (mkClient "e")).2).2).active_streams =
      some { active := true, session_id := "s1" } :=
  c1_start_replaces (startBidirectionalStream "s1" true (mkClient "e")).2 "s1"
    true (by decide)

/-- C2 counterexample: after sending "hello" with isFinal=true on session
"s1", a further send of "world" does not fail with StreamHalfClosedError: it
returns the transport's write outcome (true here) and a write for "world"
does reach the transport. -/
theorem c2_counterexample :
    (sendEmbeddingRequest "s1" "world" false true
        (sendEmbeddingRequest "s1" "hello" true true
          (startBidirectionalStream "s1" true (mkClient "e")).2).2).1 = true ∧
    (sendEmbeddingRequest "s1" "world" false true
        (sendEmbeddingRequest "s1" "hello" true true
          (startBidirectionalStream "s1" true (mkClient "e")).2).2).2.trace =
      (sendEmbeddingRequest "s1" "hello" true true
          (startBidirectionalStream "s1" true (mkClient "e")).2).2.trace ++
        [TransportEvent.write "s1" (buildEmbeddingRequest "s1" "world" false)] := by
  decide

/-- C2 amended: the client tracks no half-close state: a send with
isFinal=true on an active session leaves the session's registry entry and
active flag untouched, so every subsequent send still passes the guard,
issues a transport write, and returns the transport's write outcome; no
StreamHalfClosedError exists. -/
theorem c2_send_after_final (st : ClientState) (session_id text1 text2 : String)
    (writeOk1 writeOk2 : Bool) (ctx : StreamContext)
    (h : mapLookup session_id st.active_streams = some ctx)
    (hactive : ctx.active = true) :
    (sendEmbeddingRequest session_id text2 false writeOk2
        (sendEmbeddingRequest session_id text1 true writeOk1 st).2).1 =
      writeOk2 ∧
    (sendEmbeddingRequest session_id text2 false writeOk2
        (sendEmbeddingRequest session_id text1 true writeOk1 st).2).2.trace =
      (sendEmbeddingRequest session_id text1 true writeOk1 st).2.trace ++
        [TransportEvent.write session_id
          (buildEmbeddingRequest session_id text2 false)] := by
  have hframe : (sendEmbeddingRequest session_id text1 true writeOk1 st).2.active_streams =
      st.active_streams :=
    sendEmbeddingRequest_active_streams session_id text1 true writeOk1 st
  have h1 : mapLookup session_id
      (sendEmbeddingRequest session_id text1 true writeOk1 st).2.active_streams =
      some ctx := by rw [hframe]; exact h
  rw [sendEmbeddingRequest_active session_id text2 false writeOk2 _ ctx h1 hactive]
  simp

/-- C2 witness: the amended behavior at a concrete run: start "s1", send
"hello" final, then the send of "world" succeeds and its write is traced. -/
theorem c2_send_after_final_witness :
    (sendEmbeddingRequest "s1" "world" false true
        (sendEmbeddingRequest "s1" "hello" true true
          (startBidirectionalStream "s1" false (mkClient "f")).2).2).1 = true ∧
    (sendEmbeddingRequest "s1" "world" false true
        (sendEmbeddingRequest "s1" "hello" true true
          (startBidirectionalStream "s1" false (mkClient "f")).2).2).2.trace =
      (sendEmbeddingRequest "s1" "hello" true true
          (startBidirectionalStream "s1" false (mkClient "f")).2).2.trace ++
        [TransportEvent.write "s1" (buildEmbeddingRequest "s1" "world" false)] :=
  c2_send_after_final (startBidirectionalStream "s1" false (mkClient "f")).2
    "s1" "hello" "world" true true { active := true, session_id := "s1" }
    (by decide) rfl

/-- C3 counterexample: a document-processing job whose read loop drains one
response and then sees a failed terminal status fires no completion callback
at all (the one-shot reader threads only call the progress callback and
console.error), not exactly one. -/
theorem c3_counterexample :
    countCompletions
      (processLegalDocumentLoop 7 [{ document_id := "d1" }] false "boom") ≠ 1 := by
  decide

/-- C3 amended: for a streaming session that the reader finds in the
registry, the completion callback fires exactly once at termination when one
has been registered (a reader for an unknown id, or a client with no
registered completion callback, fires none); the one-shot jobs (document
processing, semantic search, similarity analysis) never fire a completion
callback, whatever their outcome. -/
theorem c3_completion_exactly_once_streaming (st : ClientState)
    (session_id : String) (inbound : List CudaResponse) (statusOk : Bool)
    (statusMsg : String) (ctx : StreamContext) (cb docCb searchCb simCb : Nat)
    (docInbound : List DocumentResponse) (searchInbound : List SearchResponse)
    (simInbound : List SimilarityResponse) (docOk searchOk simOk : Bool)
    (docMsg searchMsg simMsg : String)
    (h : mapLookup session_id st.active_streams = some ctx)
    (hcb : st.completion_callback = some cb) :
    countCompletions
        (readStreamResponses session_id inbound statusOk statusMsg st) = 1 ∧
    countCompletions (processLegalDocumentLoop docCb docInbound docOk docMsg) = 0 ∧
    countCompletions
        (performSemanticSearchLoop searchCb searchInbound searchOk searchMsg) = 0 ∧
    countCompletions
        (analyzeCaseSimilarityLoop simCb simInbound simOk simMsg) = 0 := by
  refine ⟨?_, ?_, ?_, ?_⟩
  · unfold readStreamResponses
    rw [h]
    unfold countCompletions
    simp only [List.countP_append]
    have hmsgs : ∀ (l : List CudaResponse) (target : Nat),
        (l.map (fun response =>
          SinkEvent.onMessage target (cudaResponseToJson response))).countP (fun e =>
            match e with
            | SinkEvent.onCompletion _ => true
            | _ => false) = 0 := by
      intro l target
      induction l with
      | nil => rfl
      | cons r rest ih => simp [List.countP_cons, ih]
    rw [hcb]
    cases hact : ctx.active <;>
      cases hr : st.response_callback <;>
      cases statusOk <;>
      cases he : st.error_callback <;>
      simp [hmsgs, List.countP_cons]
  · unfold processLegalDocumentLoop countCompletions
    simp only [List.countP_append]
    cases docOk <;> simp [List.countP_cons, List.countP_map, Function.comp]
  · unfold performSemanticSearchLoop countCompletions
    simp only [List.countP_append]
    cases searchOk <;> simp [List.countP_cons, List.countP_map, Function.comp]
  · unfold analyzeCaseSimilarityLoop countCompletions
    simp only [List.countP_append]
    cases simOk <;> simp [List.countP_cons, List.countP_map, Function.comp]

/-- C3 witness: on a client with session "s1" and completion callback 5
registered, a remote error termination fires the completion callback exactly
once, while the three one-shot loops fire none. -/
theorem c3_completion_exactly_once_streaming_witness :
    countCompletions
        (readStreamResponses "s1"
          [{ session_id := "s1", operation_type := "embed", status := 0,
             computed_embedding := [], cuda_metrics := none }] false "err"
          (setCompletionCallback 5
            (startBidirectionalStream "s1" true (mkClient "e")).2)) = 1 ∧
    countCompletions (processLegalDocumentLoop 7 [{ document_id := "d" }] false "m") = 0 ∧
    countCompletions (performSemanticSearchLoop 8 [{ query_id := "q" }] true "m") = 0 ∧
    countCompletions (analyzeCaseSimilarityLoop 9 [{ base_case_id := "b" }] false "m") = 0 :=
  c3_completion_exactly_once_streaming
    (setCompletionCallback 5 (startBidirectionalStream "s1" true (mkClient "e")).2)
    "s1"
    [{ session_id := "s1", operation_type := "embed", status := 0,
       computed_embedding := [], cuda_metrics := none }] false "err"
    { active := true, session_id := "s1" } 5 7 8 9
    [{ document_id := "d" }] [{ query_id := "q" }] [{ base_case_id := "b" }]
    false true false "m" "m" "m" (by decide) rfl

/-- C4 counterexample: a search send with isFinal=true on active session
"s1" writes the request to the transport but never calls WritesDone: no
half-close transition is triggered by the search-vector send. -/
theorem c4_counterexample :
    (sendSearchRequest "s1" [1, 2] true true
        (startBidirectionalStream "s1" true (mkClient "e")).2).2.trace =
      (startBidirectionalStream "s1" true (mkClient "e")).2.trace ++
        [TransportEvent.write "s1" (buildSearchRequest "s1" [1, 2] true)] ∧
    TransportEvent.writesDone "s1" ∉
      (sendSearchRequest "s1" [1, 2] true true
        (startBidirectionalStream "s1" true (mkClient "e")).2).2.trace := by
  decide

/-- C4 amended: only the embedding send half-closes: on an active session, a
final embedding send issues Write immediately followed by WritesDone within
the same locked call, while the search send issues only the Write and never
WritesDone even with isFinal=true; neither path prevents further sends
afterwards. -/
theorem c4_half_close_asymmetry (st : ClientState) (session_id text : String)
    (embedding_vector : List Int) (writeOk1 writeOk2 : Bool)
    (ctx : StreamContext)
    (h : mapLookup session_id st.active_streams = some ctx)
    (hactive : ctx.active = true) :
    (sendEmbeddingRequest session_id text true writeOk1 st).2.trace =
      st.trace ++
        [TransportEvent.write session_id
          (buildEmbeddingRequest session_id text true),
          TransportEvent.writesDone session_id] ∧
    (sendSearchRequest session_id embedding_vector true writeOk2 st).2.trace =
      st.trace ++
        [TransportEvent.write session_id
          (buildSearchRequest session_id embedding_vector true)] := by
  constructor
  · rw [sendEmbeddingRequest_active session_id text true writeOk1 st ctx h hactive]
    simp
  · rw [sendSearchRequest_active session_id embedding_vector true writeOk2 st ctx
      h hactive]

/-- C4 witness: the asymmetry at a concrete run on the started session
"s1": the final embedding send traces Write then WritesDone, the final
search send traces only its Write. -/
theorem c4_half_close_asymmetry_witness :
    (sendEmbeddingRequest "s1" "t" true true
        (startBidirectionalStream "s1" true (mkClient "g")).2).2.trace =
      (startBidirectionalStream "s1" true (mkClient "g")).2.trace ++
        [TransportEvent.write "s1" (buildEmbeddingRequest "s1" "t" true),
          TransportEvent.writesDone "s1"] ∧
    (sendSearchRequest "s1" [3] true false
        (startBidirectionalStream "s1" true (mkClient "g")).2).2.trace =
      (startBidirectionalStream "s1" true (mkClient "g")).2.trace ++
        [TransportEvent.write "s1" (buildSearchRequest "s1" [3] true)] :=
  c4_half_close_asymmetry (startBidirectionalStream "s1" true (mkClient "g")).2
    "s1" "t" [3] true false { active := true, session_id := "s1" }
    (by decide) rfl

/-- C5 counterexample: when the open of the duplex stream fails (openOk set
to false), startBidirectionalStream still returns the session id as a
success and still creates the registry entry for "s1", active. -/
theorem c5_counterexample :
    (startBidirectionalStream "s1" false (mkClient "e")).1 = "s1" ∧
    mapLookup "s1"
        ((startBidirectionalStream "s1" false (mkClient "e")).2).active_streams =
      some { active := true, session_id := "s1" } := by
  decide

/-- C5 amended: startBidirectionalStream performs no construction-time
failure check whatsoever: its behavior is identical whether the stream open
succeeded or failed, and in both cases it registers the session as active
and returns the session id to the caller. -/
theorem c5_start_ignores_open_outcome (st : ClientState) (session_id : String)
    (openOk : Bool) :
    startBidirectionalStream session_id openOk st =
      startBidirectionalStream session_id true st ∧
    (startBidirectionalStream session_id openOk st).1 = session_id ∧
    mapLookup session_id
        ((startBidirectionalStream session_id openOk st).2).active_streams =
      some { active := true, session_id := session_id } := by
  refine ⟨rfl, rfl, ?_⟩
  exact mapLookup_mapInsert_self session_id
    { active := true, session_id := session_id } st.active_streams

end LegalGrpcWeb
